import Mathlib

/-!
Verification of the castari-sdk session protocol: a shallow embedding of the
Connection Broker (src/server.ts), the Session Manager (src/client.ts) and
the shared constants (src/const.ts), together with proofs of the protocol
properties stated in the design document.

Modelling conventions:
  * JavaScript `Map` is modelled extensionally as a function
    `String → Option _` (get/set/delete act pointwise; the iteration in
    `cleanupTokens` deletes entries independently, so its result is the
    pointwise filter).
  * Timestamps (`Date.now()`) are explicit `Nat` parameters.
  * Network calls (`fetch`) are parametrised by their outcome; a rejected
    promise is the `netErr` constructor.
  * JavaScript strings manipulated by `String.prototype.replace` are
    modelled as `List Char`, with `replaceFirstL` reproducing the
    first-occurrence semantics of `replace` with a string pattern.
-/

namespace CastariSdk

/-! ### Constants (src/const.ts) -/

def SERVER_PORT : Nat := 3000

def WORKSPACE_DIR_NAME : String := "agent-workspace"

def CONNECTION_TOKEN_TTL_MS : Nat := 5 * 60 * 1000

/-! ### Token store (src/server.ts, lines 25-83) -/

structure ConnectionToken where
  value : String
  createdAt : Nat
  used : Bool
deriving DecidableEq, Repr

/-- The `connectionTokens` JS `Map`, modelled extensionally. -/
def TokenStore := String → Option ConnectionToken

def mapSet (m : TokenStore) (k : String) (t : ConnectionToken) : TokenStore :=
  fun x => if x = k then some t else m x

def mapDelete (m : TokenStore) (k : String) : TokenStore :=
  fun x => if x = k then none else m x

def emptyTokens : TokenStore := fun _ => none

/-- `generateConnectionToken`: inserts a fresh token (value supplied by the
`randomBytes` oracle, `createdAt` by the clock) marked unused. -/
def generateConnectionToken (m : TokenStore) (value : String) (now : Nat) : TokenStore :=
  mapSet m value { value := value, createdAt := now, used := false }

/-- `cleanupTokens`: deletes every entry that is used or older than the TTL. -/
def cleanupTokens (m : TokenStore) (now : Nat) : TokenStore :=
  fun k =>
    match m k with
    | some t =>
        if t.used || decide (now - t.createdAt > CONNECTION_TOKEN_TTL_MS) then none
        else some t
    | none => none

/-- `validateAndUseToken`: sweep, then look up, reject used/expired (deleting
the entry), otherwise mark used and accept. Returns the boolean result and
the updated store. -/
def validateAndUseToken (m : TokenStore) (now : Nat) (value : Option String) :
    Bool × TokenStore :=
  let m1 := cleanupTokens m now
  match value with
  | none => (false, m1)
  | some v =>
      match m1 v with
      | none => (false, m1)
      | some t =>
          let isExpired := decide (now - t.createdAt > CONNECTION_TOKEN_TTL_MS)
          if t.used || isExpired then (false, mapDelete m1 v)
          else (true, mapSet m1 v { t with used := true })

/-- A sequence of `validateAndUseToken` calls: each element is the clock
value and the presented token parameter; results in call order. -/
def runCalls (m : TokenStore) : List (Nat × Option String) → List Bool
  | [] => []
  | c :: cs =>
      (validateAndUseToken m c.1 c.2).1 ::
        runCalls (validateAndUseToken m c.1 c.2).2 cs

/-! ### Session configuration (`QueryConfig`)

`types.ts` is not part of the sources; the shape of the `/config` payload is
taken from the fields the client sends in `configPayload` (src/client.ts,
lines 89-96), which match the spec's SessionConfig fields. -/

structure QueryConfig where
  anthropicApiKey : Option String := none
  agents : Option String := none
  allowedTools : Option (List String) := none
  systemPrompt : Option String := none
  model : Option String := none
  resume : Option String := none
deriving DecidableEq, Repr

/-! ### Broker state and HTTP handlers (src/server.ts, `serve`) -/

/-- The broker's module-level mutable state: `queryConfig`,
`connectionTokens` and `activeConnection` (sockets as numeric ids). -/
structure BrokerState where
  queryConfig : QueryConfig
  tokens : TokenStore
  activeConnection : Option Nat

inductive WsDecision where
  | unauthorized
  | conflict
  | upgraded
deriving DecidableEq, Repr

structure ConfigPostResponse where
  status : Nat
  connectionToken : Option String
deriving DecidableEq, Repr

/-- `POST /config` (server.ts lines 199-212). `parsed` is the outcome of
`req.json()` (`none` = the body was not valid JSON and the promise rejected);
`fresh` is the random value the token generator would produce. -/
def handleConfigPost (s : BrokerState) (parsed : Option QueryConfig) (now : Nat)
    (fresh : String) : ConfigPostResponse × BrokerState :=
  match parsed with
  | some cfg =>
      ({ status := 200, connectionToken := some fresh },
        { s with
            queryConfig := cfg
            tokens := generateConnectionToken s.tokens fresh now })
  | none => ({ status := 400, connectionToken := none }, s)

/-- `GET /ws` upgrade branch (server.ts lines 220-233): validate the token
first (401 on failure), then reject with 409 if a connection is active,
otherwise upgrade. -/
def handleWsUpgrade (s : BrokerState) (now : Nat) (tokenParam : Option String) :
    WsDecision × BrokerState :=
  let v := validateAndUseToken s.tokens now tokenParam
  if v.1 = false then (WsDecision.unauthorized, { s with tokens := v.2 })
  else if s.activeConnection.isSome then (WsDecision.conflict, { s with tokens := v.2 })
  else (WsDecision.upgraded, { s with tokens := v.2 })

/-- `websocket.open` handler (server.ts line 243-244). -/
def handleOpen (s : BrokerState) (ws : Nat) : BrokerState :=
  { s with activeConnection := some ws }

/-- `websocket.close` handler (server.ts lines 263-267): clear the active
connection only when the closing socket is the registered one. -/
def handleClose (s : BrokerState) (ws : Nat) : BrokerState :=
  if s.activeConnection = some ws then { s with activeConnection := none } else s

/-! ### Input queue and drain generator (src/server.ts, lines 34-35 & 86-96)

`generateMessages` runs on the same single-threaded event loop as the
message handler that pushes into `messageQueue`; an execution is an
interleaving of atomic enqueue steps (push) and drain steps (one `shift`
followed by a `yield`, or a sleep when the queue is empty). -/

inductive DrainEvent (α : Type) where
  | enqueue (m : α)
  | drain
deriving DecidableEq, Repr

structure BridgeState (α : Type) where
  queue : List α
  delivered : List α
deriving DecidableEq, Repr

def stepBridge {α : Type} (s : BridgeState α) : DrainEvent α → BridgeState α
  | DrainEvent.enqueue m => { s with queue := s.queue ++ [m] }
  | DrainEvent.drain =>
      match s.queue with
      | [] => s
      | m :: rest => { queue := rest, delivered := s.delivered ++ [m] }

def runBridge {α : Type} (s : BridgeState α) (es : List (DrainEvent α)) : BridgeState α :=
  es.foldl stepBridge s

/-- The messages submitted over a trace, in submission order. -/
def submitted {α : Type} : List (DrainEvent α) → List α
  | [] => []
  | DrainEvent.enqueue m :: es => m :: submitted es
  | DrainEvent.drain :: es => submitted es

/-! ### Effective option resolution (src/server.ts, `processMessages` lines 99-145)

The `Options` object is built by object-spread:
base defaults, then `...initialOptions`, then the injected `mcpServers`, then
`...queryConfig`, then the conditional `env` block. Fields are modelled with
`Option` (`none` = key absent); the function-valued defaults `canUseTool` and
`stderr` are opaque callbacks not involved in any override and are omitted. -/

structure CastariServerOptions where
  port : Option Nat := none
  tools : List String := []
  mcpServers : Option (List String) := none
  settingSources : Option (List String) := none
  cwd : Option String := none
  env : Option (Option String × Option String) := none
  systemPrompt : Option String := none
  allowedTools : Option (List String) := none
  model : Option String := none
  resume : Option String := none
  agents : Option String := none
deriving DecidableEq, Repr

structure ResolvedOptions where
  settingSources : List String
  cwd : String
  systemPrompt : Option String
  allowedTools : Option (List String)
  model : Option String
  resume : Option String
  agents : Option String
  anthropicApiKey : Option String
  mcpServers : List String
  env : Option (Option String × Option String)
deriving DecidableEq, Repr

def insertServerName (names : List String) (n : String) : List String :=
  if n ∈ names then names else names ++ [n]

/-- The option object constructed at the start of `processMessages`.
`workspaceDir` is the module-level `workspaceDirectory`; `envPATH` and
`envKey` are `process.env.PATH` / `process.env.ANTHROPIC_API_KEY`. -/
def buildOptions (workspaceDir : String) (envPATH envKey : Option String)
    (initial : CastariServerOptions) (qc : QueryConfig) : ResolvedOptions :=
  let baseMcp := initial.mcpServers.getD []
  let mcp := if initial.tools ≠ [] then insertServerName baseMcp "castari-agent" else baseMcp
  let effKey := qc.anthropicApiKey.orElse fun _ => envKey
  { settingSources := initial.settingSources.getD ["local"]
    cwd := initial.cwd.getD workspaceDir
    systemPrompt := qc.systemPrompt.orElse fun _ => initial.systemPrompt
    allowedTools := qc.allowedTools.orElse fun _ => initial.allowedTools
    model := qc.model.orElse fun _ => initial.model
    resume := qc.resume.orElse fun _ => initial.resume
    agents := qc.agents.orElse fun _ => initial.agents
    anthropicApiKey := qc.anthropicApiKey
    mcpServers := mcp
    env := if effKey.isSome then some (envPATH, effKey) else initial.env }

/-! ### JS string helpers for URL derivation (src/client.ts)

`String.prototype.replace(pattern, replacement)` with a string pattern
replaces only the first occurrence; `/\/$/` strips a single trailing
slash. Modelled over `List Char`. -/

def isPrefixOfL : List Char → List Char → Bool
  | [], _ => true
  | _ :: _, [] => false
  | a :: as, b :: bs => a = b && isPrefixOfL as bs

def replaceFirstL : List Char → List Char → List Char → List Char
  | [], pat, rep => if isPrefixOfL pat [] then rep else []
  | c :: cs, pat, rep =>
      if isPrefixOfL pat (c :: cs) then rep ++ (c :: cs).drop pat.length
      else c :: replaceFirstL cs pat rep

def containsSub : List Char → List Char → Bool
  | [], pat => isPrefixOfL pat []
  | c :: cs, pat => isPrefixOfL pat (c :: cs) || containsSub cs pat

def stripTrailingSlashL (s : List Char) : List Char :=
  if s.getLast? = some '/' then s.dropLast else s

def httpSchemeL : List Char := "http://".toList
def httpsSchemeL : List Char := "https://".toList
def wsSchemeL : List Char := "ws://".toList
def wssSchemeL : List Char := "wss://".toList

def DEFAULT_LOCAL_URL : List Char := "http://localhost:3000".toList

def DEFAULT_PLATFORM_URL : List Char :=
  "https://castari-api-12511-04c55b73-g4p2s9om.onporter.run".toList

/-! ### Session Manager connection resolution (src/client.ts, lines 55-285) -/

structure ClientOptions where
  connectionUrl : Option (List Char) := none
  clientId : Option (List Char) := none
  platformApiKey : Option (List Char) := none
  platformUrl : Option (List Char) := none
  useProxy : Option Bool := none
deriving DecidableEq, Repr

/-- The parsed success body of `POST /sandbox/start`. -/
structure ProvisionResponse where
  id : List Char
  url : List Char
  proxyUrl : Option (List Char) := none
  authHeaders : Option (List (List Char × List Char)) := none
  authParams : Option (List (List Char × List Char)) := none
deriving DecidableEq, Repr

structure ConnectionDetails where
  configUrl : List Char
  wsUrl : List Char
  authHeaders : Option (List (List Char × List Char)) := none
  authParams : Option (List (List Char × List Char)) := none
  hasCleanup : Bool := false
deriving DecidableEq, Repr

/-- `setupLocalConnection` (client.ts lines 194-203). -/
def setupLocalConnection (connectionUrl : Option (List Char)) : ConnectionDetails :=
  let baseUrl := stripTrailingSlashL (connectionUrl.getD DEFAULT_LOCAL_URL)
  { configUrl :=
      replaceFirstL (replaceFirstL baseUrl wsSchemeL httpSchemeL) wssSchemeL httpsSchemeL
        ++ "/config".toList
    wsUrl :=
      replaceFirstL (replaceFirstL baseUrl httpSchemeL wsSchemeL) httpsSchemeL wssSchemeL
        ++ "/ws".toList }

/-- `this.options.platformUrl || process.env.CASTARI_PLATFORM_URL ||
DEFAULT_PLATFORM_URL`, trailing slash stripped. -/
def resolvedPlatformUrl (opts : ClientOptions) (envPlatformUrl : Option (List Char)) :
    List Char :=
  stripTrailingSlashL ((opts.platformUrl.orElse fun _ => envPlatformUrl).getD
    DEFAULT_PLATFORM_URL)

/-- `this.options.useProxy ?? (process.env.CASTARI_USE_PROXY !== 'false')`. -/
def resolvedUseProxy (opts : ClientOptions) (envUseProxy : Option (List Char)) : Bool :=
  opts.useProxy.getD (decide (envUseProxy ≠ some "false".toList))

/-- `setupPlatformConnection` (client.ts lines 205-285), given the parsed
provisioning response. Throws (`Except.error`) when no client id resolved. -/
def setupPlatformConnection (opts : ClientOptions)
    (envPlatformUrl envUseProxy : Option (List Char))
    (resolvedClientId : Option (List Char)) (resp : ProvisionResponse) :
    Except (List Char) ConnectionDetails :=
  match resolvedClientId with
  | none =>
      Except.error
        "CASTARI_CLIENT_ID is required when connecting via the Castari Platform".toList
  | some _ =>
      let platformUrl := resolvedPlatformUrl opts envPlatformUrl
      let useProxy := resolvedUseProxy opts envUseProxy
      match useProxy, resp.proxyUrl with
      | true, some p =>
          Except.ok
            { configUrl := platformUrl ++ "/proxy/".toList ++ resp.id ++ "/config".toList
              wsUrl := p
              hasCleanup := true }
      | _, _ =>
          let baseUrl := stripTrailingSlashL resp.url
          Except.ok
            { configUrl :=
                replaceFirstL (replaceFirstL baseUrl wsSchemeL httpSchemeL) wssSchemeL
                  httpsSchemeL ++ "/config".toList
              wsUrl :=
                replaceFirstL (replaceFirstL baseUrl httpsSchemeL wssSchemeL) httpSchemeL
                  wsSchemeL ++ "/ws".toList
              authHeaders := resp.authHeaders
              authParams := resp.authParams
              hasCleanup := true }

/-- Connection-target resolution in `start` (client.ts lines 81-83): the
boolean records whether platform sandbox provisioning was invoked. -/
def resolveConnection (opts : ClientOptions)
    (envPlatformUrl envUseProxy envClientId : Option (List Char))
    (resp : ProvisionResponse) : Bool × Except (List Char) ConnectionDetails :=
  match opts.connectionUrl with
  | some _ => (false, Except.ok (setupLocalConnection opts.connectionUrl))
  | none =>
      (true,
        setupPlatformConnection opts envPlatformUrl envUseProxy
          (opts.clientId.orElse fun _ => envClientId) resp)

/-! ### Configuration retry loop (src/client.ts, `start` lines 107-148) -/

inductive FetchOutcome where
  | netErr
  | resp (ok : Bool) (status : Nat) (body : String)
deriving DecidableEq, Repr

def attemptOk : FetchOutcome → Bool
  | FetchOutcome.netErr => false
  | FetchOutcome.resp ok _ _ => ok

/-- `configResponse ? await configResponse.text() : 'no response'`. -/
def lastBodyText : FetchOutcome → String
  | FetchOutcome.netErr => "no response"
  | FetchOutcome.resp _ _ body => body

/-- The attempt numbers of the `for` loop, `1` to `maxConfigAttempts = 5`. -/
def attemptNumbers : List Nat := [1, 2, 3, 4, 5]

/-- One pass of the retry loop over the remaining attempt numbers: returns
(fetches made, total delay slept in ms, last response). The 3000 ms delay is
slept only when another attempt follows (`attempt < maxConfigAttempts`). -/
def configLoop (f : Nat → FetchOutcome) : List Nat → Nat × Nat × Option FetchOutcome
  | [] => (0, 0, none)
  | a :: rest =>
      let o := f a
      if attemptOk o then (1, 0, some o)
      else
        match rest with
        | [] => (1, 0, some o)
        | _ :: _ =>
            let r := configLoop f rest
            (r.1 + 1, 3000 + r.2.1, r.2.2)

structure ConfigPhaseResult where
  succeeded : Bool
  last : FetchOutcome
  fetches : Nat
  delayMs : Nat
  cleanupRan : Bool
  thrown : Option String
deriving DecidableEq, Repr

/-- The configuration phase of `start`: run the retry loop; on failure run
`connection.cleanup` when present and throw with the last body (or
"no response"); on success proceed to token extraction. `hasCleanup` is
whether the resolved connection carries a cleanup callback. -/
def startConfigPhase (hasCleanup : Bool) (f : Nat → FetchOutcome) : ConfigPhaseResult :=
  match configLoop f attemptNumbers with
  | (n, d, some last) =>
      if attemptOk last then
        { succeeded := true, last := last, fetches := n, delayMs := d,
          cleanupRan := false, thrown := none }
      else
        { succeeded := false, last := last, fetches := n, delayMs := d,
          cleanupRan := hasCleanup, thrown := some (lastBodyText last) }
  | (n, d, none) =>
      { succeeded := false, last := FetchOutcome.netErr, fetches := n, delayMs := d,
        cleanupRan := hasCleanup, thrown := some (lastBodyText FetchOutcome.netErr) }

/-! ### Teardown (src/client.ts, `stop` lines 308-340) -/

structure ClientState where
  wsOpen : Bool
  sandboxId : Option String
  resolvedClientId : Option String
  resolvedPlatformApiKey : Option String
deriving DecidableEq, Repr

structure StopRequest where
  sandboxId : String
  delete : Bool
  clientId : Option String
deriving DecidableEq, Repr

inductive LogEvent where
  | errorLog (msg : String)
  | debugLog (msg : String)
deriving DecidableEq, Repr

/-- `stop`: close the socket, and if a sandbox id is stored issue the stop
request; a rejected fetch or a non-ok response is only logged (the whole
network interaction sits in a `try`/`catch`). A thrown error would surface
as `Except.error`; every path returns `Except.ok` with the requests issued,
the log events, and the state after the call. -/
def stopClient (s : ClientState) (deleteOpt : Bool) (netOutcome : FetchOutcome) :
    Except String (List StopRequest × List LogEvent × ClientState) :=
  let s1 := { s with wsOpen := false }
  match s1.sandboxId with
  | none => Except.ok ([], [], s1)
  | some id =>
      let req : StopRequest :=
        { sandboxId := id, delete := deleteOpt, clientId := s1.resolvedClientId }
      match netOutcome with
      | FetchOutcome.netErr =>
          Except.ok ([req], [LogEvent.errorLog "Failed to call stop endpoint"], s1)
      | FetchOutcome.resp ok _ body =>
          if ok then Except.ok ([req], [], s1)
          else Except.ok ([req], [LogEvent.errorLog body], s1)

/-! ### Concrete example inputs used by the witness theorems -/

def tokEx : TokenStore := mapSet emptyTokens "tok" { value := "tok", createdAt := 0, used := false }

def tokExpiredEx : TokenStore :=
  mapSet emptyTokens "old" { value := "old", createdAt := 0, used := false }

def brokerActiveEx : BrokerState := { queryConfig := {}, tokens := tokEx, activeConnection := some 0 }

def brokerActiveEmptyEx : BrokerState :=
  { queryConfig := {}, tokens := emptyTokens, activeConnection := some 0 }

def fEx : Nat → FetchOutcome :=
  fun k => if k = 3 then FetchOutcome.resp true 200 "ok" else FetchOutcome.netErr

def fFailEx : Nat → FetchOutcome := fun _ => FetchOutcome.resp false 500 "boom"

def clientRunningEx : ClientState :=
  { wsOpen := true, sandboxId := some "sb-1", resolvedClientId := some "client-1",
    resolvedPlatformApiKey := none }

def clientStoppedEx : ClientState :=
  { wsOpen := false, sandboxId := some "sb-1", resolvedClientId := some "client-1",
    resolvedPlatformApiKey := none }

def optsLocalEx : ClientOptions := { connectionUrl := some "http://localhost:3000".toList }

def optsLocalHttpsEx : ClientOptions :=
  { connectionUrl := some "https://myhost:8443/".toList }

def optsPlatformEx : ClientOptions := { clientId := some "cid".toList }

def respProxyEx : ProvisionResponse :=
  { id := "sb".toList, url := "http://10.0.0.5:3000".toList,
    proxyUrl := some "wss://proxy.example/ws/sb".toList }

def serverInitEx : CastariServerOptions :=
  { systemPrompt := some "startup prompt", model := some "model-init", cwd := some "/srv" }

def qcEx : QueryConfig := { systemPrompt := some "dynamic prompt" }

end CastariSdk

namespace CastariSdk

/-! ## Lemmas about the token store -/

/-- Invariant used for single-use: the value is absent from the store or its
entry is marked used. -/
def usedOrAbsent (m : TokenStore) (v : String) : Prop :=
  ∀ t, m v = some t → t.used = true

theorem cleanupTokens_eq_none (m : TokenStore) (now : Nat) (k : String) (u : ConnectionToken)
    (hk : m k = some u)
    (h : u.used = true ∨ now - u.createdAt > CONNECTION_TOKEN_TTL_MS) :
    cleanupTokens m now k = none := by
  unfold cleanupTokens
  rw [hk]
  rcases h with h | h <;> simp [h]

theorem cleanupTokens_of_usedOrAbsent (m : TokenStore) (now : Nat) (v : String)
    (h : usedOrAbsent m v) : cleanupTokens m now v = none := by
  unfold cleanupTokens
  cases hm : m v with
  | none => rfl
  | some t => simp [h t hm]

theorem validate_none_eq (m : TokenStore) (now : Nat) :
    validateAndUseToken m now none = (false, cleanupTokens m now) := rfl

theorem validate_some_of_none (m : TokenStore) (now : Nat) (v : String)
    (h : cleanupTokens m now v = none) :
    validateAndUseToken m now (some v) = (false, cleanupTokens m now) := by
  unfold validateAndUseToken
  simp [h]

theorem validate_some_of_bad (m : TokenStore) (now : Nat) (v : String) (t : ConnectionToken)
    (h : cleanupTokens m now v = some t)
    (hg : (t.used || decide (now - t.createdAt > CONNECTION_TOKEN_TTL_MS)) = true) :
    validateAndUseToken m now (some v) = (false, mapDelete (cleanupTokens m now) v) := by
  unfold validateAndUseToken
  simp [h, hg]

theorem validate_some_of_good (m : TokenStore) (now : Nat) (v : String) (t : ConnectionToken)
    (h : cleanupTokens m now v = some t)
    (hg : (t.used || decide (now - t.createdAt > CONNECTION_TOKEN_TTL_MS)) = false) :
    validateAndUseToken m now (some v) =
      (true, mapSet (cleanupTokens m now) v { t with used := true }) := by
  unfold validateAndUseToken
  simp [h, hg]

/-- After any validation call, a key the sweep evicted (or that was already
absent) is absent from the resulting store: the only insertion writes to the
presented key, which survived the sweep. -/
theorem validate_snd_none (m : TokenStore) (now : Nat) (w : Option String) (k : String)
    (h : cleanupTokens m now k = none) :
    (validateAndUseToken m now w).2 k = none := by
  cases w with
  | none => rw [validate_none_eq]; exact h
  | some x =>
      cases hx : cleanupTokens m now x with
      | none => rw [validate_some_of_none m now x hx]; exact h
      | some t =>
          cases hg : (t.used || decide (now - t.createdAt > CONNECTION_TOKEN_TTL_MS)) with
          | true =>
              rw [validate_some_of_bad m now x t hx hg]
              unfold mapDelete
              by_cases hkx : k = x <;> simp [hkx, h]
          | false =>
              rw [validate_some_of_good m now x t hx hg]
              unfold mapSet
              by_cases hkx : k = x
              · rw [hkx] at h; rw [h] at hx; cases hx
              · simp [hkx, h]

theorem usedOrAbsent_preserved (m : TokenStore) (now : Nat) (w : Option String) (v : String)
    (h : usedOrAbsent m v) : usedOrAbsent (validateAndUseToken m now w).2 v := by
  intro t ht
  rw [validate_snd_none m now w v (cleanupTokens_of_usedOrAbsent m now v h)] at ht
  cases ht

theorem validate_false_of_usedOrAbsent (m : TokenStore) (now : Nat) (v : String)
    (h : usedOrAbsent m v) : (validateAndUseToken m now (some v)).1 = false := by
  rw [validate_some_of_none m now v (cleanupTokens_of_usedOrAbsent m now v h)]

theorem usedOrAbsent_established (m : TokenStore) (now : Nat) (v : String)
    (h : (validateAndUseToken m now (some v)).1 = true) :
    usedOrAbsent (validateAndUseToken m now (some v)).2 v := by
  cases hx : cleanupTokens m now v with
  | none => rw [validate_some_of_none m now v hx] at h; cases h
  | some t =>
      cases hg : (t.used || decide (now - t.createdAt > CONNECTION_TOKEN_TTL_MS)) with
      | true => rw [validate_some_of_bad m now v t hx hg] at h; cases h
      | false =>
          rw [validate_some_of_good m now v t hx hg]
          intro t' ht'
          unfold mapSet at ht'
          simp at ht'
          rw [← ht']

theorem runCalls_rejects_aux (v : String) :
    ∀ (cs : List (Nat × Option String)) (m : TokenStore), usedOrAbsent m v →
      ∀ (j : Nat) (nj : Nat), cs[j]? = some (nj, some v) →
      (runCalls m cs)[j]? = some false := by
  intro cs
  induction cs with
  | nil => intro m _ j nj hj; simp at hj
  | cons c cs ih =>
      intro m hP j nj hj
      cases j with
      | zero =>
          simp at hj
          show ((validateAndUseToken m c.1 c.2).1 :: _)[0]? = some false
          rw [List.getElem?_cons_zero]
          rw [show c.2 = some v by rw [hj]]
          rw [validate_false_of_usedOrAbsent m c.1 v hP]
      | succ j' =>
          show ((validateAndUseToken m c.1 c.2).1 :: runCalls _ cs)[j' + 1]? = some false
          rw [List.getElem?_cons_succ]
          exact ih _ (usedOrAbsent_preserved m c.1 c.2 v hP) j' nj
            (by rw [← hj]; exact (List.getElem?_cons_succ).symm ▸ rfl)

/-! ## Claim theorems -/

/-- C2: for every token value `v` and every sequence of `validateAndUseToken`
calls (from an arbitrary initial store), once a call presenting `v` has
returned true, every later call presenting `v` returns false — so the call
returns true for `v` at most once across the sequence. -/
theorem token_single_use (m : TokenStore) (cs : List (Nat × Option String))
    (i j : Nat) (v : String) (ni nj : Nat) :
    i < j →
    cs[i]? = some (ni, some v) →
    cs[j]? = some (nj, some v) →
    (runCalls m cs)[i]? = some true →
    (runCalls m cs)[j]? = some false := by
  induction cs generalizing m i j with
  | nil => intro _ hi _ _; simp at hi
  | cons c cs ih =>
      intro hij hi hj hri
      cases j with
      | zero => omega
      | succ j' =>
          cases i with
          | zero =>
              simp at hi
              have hri0 : (validateAndUseToken m c.1 c.2).1 = true := by
                have : ((validateAndUseToken m c.1 c.2).1 :: runCalls _ cs)[0]? = some true := hri
                rw [List.getElem?_cons_zero] at this
                exact Option.some.injEq _ _ ▸ this
              have hc2 : c.2 = some v := by rw [hi]
              rw [hc2] at hri0
              have hP : usedOrAbsent (validateAndUseToken m c.1 (some v)).2 v :=
                usedOrAbsent_established m c.1 v hri0
              show ((validateAndUseToken m c.1 c.2).1 :: runCalls _ cs)[j' + 1]? = some false
              rw [List.getElem?_cons_succ]
              have hj' : cs[j']? = some (nj, some v) := by
                rw [← hj]; exact (List.getElem?_cons_succ).symm ▸ rfl
              rw [hc2]
              exact runCalls_rejects_aux v cs _ hP j' nj hj'
          | succ i' =>
              show ((validateAndUseToken m c.1 c.2).1 :: runCalls _ cs)[j' + 1]? = some false
              rw [List.getElem?_cons_succ]
              have hi' : cs[i']? = some (ni, some v) := by
                rw [← hi]; exact (List.getElem?_cons_succ).symm ▸ rfl
              have hj' : cs[j']? = some (nj, some v) := by
                rw [← hj]; exact (List.getElem?_cons_succ).symm ▸ rfl
              have hri' : (runCalls (validateAndUseToken m c.1 c.2).2 cs)[i']? = some true := by
                have := hri
                rw [show (runCalls m (c :: cs)) =
                      (validateAndUseToken m c.1 c.2).1 ::
                        runCalls (validateAndUseToken m c.1 c.2).2 cs from rfl,
                    List.getElem?_cons_succ] at this
                exact this
              exact ih _ i' j' (by omega) hi' hj' hri'

/-- Witness for C2: a fresh token validates once, then is rejected. -/
theorem token_single_use_witness :
    (runCalls tokEx [(1, some "tok"), (2, some "tok")])[1]? = some false :=
  token_single_use tokEx [(1, some "tok"), (2, some "tok")] 0 1 "tok" 1 2
    (by decide) (by decide) (by decide) (by decide)

/-- C3: a token older than the TTL is rejected even if never consumed, and
every validation attempt — whatever value was presented, including null —
first sweeps the store, so any token that was used or expired at call time
is absent from the resulting store. -/
theorem token_expiry_and_sweep (m : TokenStore) (now : Nat) (v k : String)
    (t u : ConnectionToken) (w : Option String) :
    (m v = some t → now - t.createdAt > CONNECTION_TOKEN_TTL_MS →
        (validateAndUseToken m now (some v)).1 = false)
    ∧ (m k = some u → (u.used = true ∨ now - u.createdAt > CONNECTION_TOKEN_TTL_MS) →
        (validateAndUseToken m now w).2 k = none) := by
  constructor
  · intro hv hexp
    rw [validate_some_of_none m now v (cleanupTokens_eq_none m now v t hv (Or.inr hexp))]
  · intro hk hue
    exact validate_snd_none m now w k (cleanupTokens_eq_none m now k u hk hue)

/-- Witness for C3: at `now = 400000` the token created at 0 is 100 seconds
past the 5-minute TTL: it is rejected, and a validation attempt presenting
null evicts it. -/
theorem token_expiry_and_sweep_witness :
    (validateAndUseToken tokExpiredEx 400000 (some "old")).1 = false
    ∧ (validateAndUseToken tokExpiredEx 400000 none).2 "old" = none := by
  have h := token_expiry_and_sweep tokExpiredEx 400000 "old" "old"
    { value := "old", createdAt := 0, used := false }
    { value := "old", createdAt := 0, used := false } none
  exact ⟨h.1 (by decide) (by decide), h.2 (by decide) (by decide)⟩

theorem handleWsUpgrade_snd (s : BrokerState) (now : Nat) (tok : Option String) :
    (handleWsUpgrade s now tok).2 =
      { s with tokens := (validateAndUseToken s.tokens now tok).2 } := by
  unfold handleWsUpgrade
  by_cases h : (validateAndUseToken s.tokens now tok).1 = false
  · simp [h]
  · by_cases h2 : s.activeConnection.isSome <;> simp [h, h2]

/-- C1 counterexample: with a connection active and an unknown token
presented, the `/ws` handler answers 401 (unauthorized), not the 409
conflict the claim demands for every upgrade while a transport is active —
token validation runs before the singleton check. -/
theorem ws_upgrade_conflict_cex :
    brokerActiveEmptyEx.activeConnection.isSome = true
    ∧ (handleWsUpgrade brokerActiveEmptyEx 0 (some "nope")).1 = WsDecision.unauthorized
    ∧ (handleWsUpgrade brokerActiveEmptyEx 0 (some "nope")).1 ≠ WsDecision.conflict := by
  refine ⟨rfl, ?_, ?_⟩ <;> decide

/-- C1 amended: while a transport is active, an upgrade presenting a token
that validates is rejected with 409 — and the token is consumed by the
attempt, so re-presenting it (even while the connection is still active)
yields 401; an upgrade whose token fails validation is rejected with 401. -/
theorem ws_upgrade_status_order (s : BrokerState) (now now₂ : Nat) (tok : Option String) :
    s.activeConnection.isSome = true →
    (((validateAndUseToken s.tokens now tok).1 = true →
        (handleWsUpgrade s now tok).1 = WsDecision.conflict
        ∧ (handleWsUpgrade (handleWsUpgrade s now tok).2 now₂ tok).1 = WsDecision.unauthorized)
      ∧ ((validateAndUseToken s.tokens now tok).1 = false →
        (handleWsUpgrade s now tok).1 = WsDecision.unauthorized)) := by
  intro hA
  have unauthorizedBranch : ∀ (s' : BrokerState) (n : Nat) (tk : Option String),
      (validateAndUseToken s'.tokens n tk).1 = false →
      (handleWsUpgrade s' n tk).1 = WsDecision.unauthorized := by
    intro s' n tk h
    unfold handleWsUpgrade
    simp [h]
  constructor
  · intro hT
    constructor
    · unfold handleWsUpgrade
      simp [hT, hA]
    · cases tok with
      | none => rw [validate_none_eq] at hT; cases hT
      | some v =>
          have hP : usedOrAbsent (validateAndUseToken s.tokens now (some v)).2 v :=
            usedOrAbsent_established s.tokens now v hT
          apply unauthorizedBranch
          rw [handleWsUpgrade_snd]
          exact validate_false_of_usedOrAbsent _ now₂ v hP
  · intro hF
    exact unauthorizedBranch s now tok hF

/-- Witness for C1's amended theorem: a valid token presented while a
connection is active yields 409, and presenting it again yields 401. -/
theorem ws_upgrade_status_order_witness :
    (handleWsUpgrade brokerActiveEx 1 (some "tok")).1 = WsDecision.conflict
    ∧ (handleWsUpgrade (handleWsUpgrade brokerActiveEx 1 (some "tok")).2 2 (some "tok")).1
        = WsDecision.unauthorized
    ∧ (handleWsUpgrade brokerActiveEx 1 (some "zzz")).1 = WsDecision.unauthorized := by
  have h := ws_upgrade_status_order brokerActiveEx 1 2 (some "tok") (by decide)
  have h2 := ws_upgrade_status_order brokerActiveEx 1 2 (some "zzz") (by decide)
  exact ⟨(h.1 (by decide)).1, (h.1 (by decide)).2, h2.2 (by decide)⟩

/-- C9: a `POST /config` whose body fails to parse as JSON returns 400,
issues no connection token, and leaves the broker state (stored config and
token store) unchanged. -/
theorem config_invalid_json_rejected (s : BrokerState) (now : Nat) (fresh : String) :
    (handleConfigPost s none now fresh).1.status = 400
    ∧ (handleConfigPost s none now fresh).1.connectionToken = none
    ∧ (handleConfigPost s none now fresh).2 = s :=
  ⟨rfl, rfl, rfl⟩

/-- C10: the close handler clears the active-connection reference only when
the closing socket is the currently registered one; a close from a stale
socket leaves a newer active connection in place. -/
theorem close_clears_only_active (s : BrokerState) (w w₂ : Nat) :
    (s.activeConnection = some w₂ → w ≠ w₂ →
      (handleClose s w).activeConnection = some w₂)
    ∧ (s.activeConnection = some w → (handleClose s w).activeConnection = none) := by
  constructor
  · intro h hne
    unfold handleClose
    rw [h]
    rw [if_neg (by simp [hne.symm])]
    exact h
  · intro h
    unfold handleClose
    rw [h, if_pos rfl]

/-- Witness for C10: socket 1 closing does not clear active socket 0;
socket 0 closing does. -/
theorem close_clears_only_active_witness :
    (handleClose brokerActiveEx 1).activeConnection = some 0
    ∧ (handleClose brokerActiveEx 0).activeConnection = none :=
  ⟨(close_clears_only_active brokerActiveEx 1 0).1 rfl (by decide),
    (close_clears_only_active brokerActiveEx 0 0).2 rfl⟩

/-- C4 counterexample: a first `stop` on a client with a provisioned sandbox
issues the stop request and leaves `sandboxId` set, so a second consecutive
`stop` issues a second network stop request still carrying sandboxId
"sb-1" — contradicting the claim that no second request with a live
sandboxId is sent. -/
theorem stop_twice_cex :
    stopClient clientRunningEx true (FetchOutcome.resp true 200 "ok")
      = Except.ok ([{ sandboxId := "sb-1", delete := true, clientId := some "client-1" }],
          [], clientStoppedEx)
    ∧ stopClient clientStoppedEx true (FetchOutcome.resp true 200 "ok")
      = Except.ok ([{ sandboxId := "sb-1", delete := true, clientId := some "client-1" }],
          [], clientStoppedEx) := by
  constructor <;> rfl

/-- C4 amended: `stop` never throws — the network interaction always
returns `ok`, with failures (rejected fetch or non-success status) only
logged — but it does not clear the stored sandbox reference, so whenever a
sandbox id is stored each call (hence also a second consecutive call)
issues a stop request carrying that same id. -/
theorem stop_never_throws_but_resends (s : ClientState) (d : Bool) (o : FetchOutcome) :
    (∃ r, stopClient s d o = Except.ok r)
    ∧ (∀ id, s.sandboxId = some id →
        ∃ logs, stopClient s d o =
          Except.ok ([{ sandboxId := id, delete := d, clientId := s.resolvedClientId }],
            logs, { s with wsOpen := false })) := by
  constructor
  · cases hs : s.sandboxId with
    | none =>
        refine ⟨([], [], { s with wsOpen := false }), ?_⟩
        unfold stopClient
        simp [hs]
    | some id =>
        cases o with
        | netErr =>
            refine ⟨([{ sandboxId := id, delete := d, clientId := s.resolvedClientId }],
              [LogEvent.errorLog "Failed to call stop endpoint"],
              { s with wsOpen := false }), ?_⟩
            unfold stopClient
            simp [hs]
        | resp ok status body =>
            cases ok
            · refine ⟨([{ sandboxId := id, delete := d, clientId := s.resolvedClientId }],
                [LogEvent.errorLog body], { s with wsOpen := false }), ?_⟩
              unfold stopClient
              simp [hs]
            · refine ⟨([{ sandboxId := id, delete := d, clientId := s.resolvedClientId }],
                [], { s with wsOpen := false }), ?_⟩
              unfold stopClient
              simp [hs]
  · intro id hs
    cases o with
    | netErr =>
        refine ⟨[LogEvent.errorLog "Failed to call stop endpoint"], ?_⟩
        unfold stopClient
        simp [hs]
    | resp ok status body =>
        cases ok
        · refine ⟨[LogEvent.errorLog body], ?_⟩
          unfold stopClient
          simp [hs]
        · refine ⟨[], ?_⟩
          unfold stopClient
          simp [hs]

/-- Witness for C4's amended theorem: concrete second `stop` call outcome. -/
theorem stop_never_throws_but_resends_witness :
    ∃ logs, stopClient clientStoppedEx false FetchOutcome.netErr =
      Except.ok ([{ sandboxId := "sb-1", delete := false, clientId := some "client-1" }],
        logs, clientStoppedEx) :=
  (stop_never_throws_but_resends clientStoppedEx false FetchOutcome.netErr).2 "sb-1" rfl

/-- Unrolled description of the five-attempt configuration retry loop. -/
theorem startConfigPhase_unroll (hasCleanup : Bool) (f : Nat → FetchOutcome) :
    startConfigPhase hasCleanup f =
      if attemptOk (f 1) then
        { succeeded := true, last := f 1, fetches := 1, delayMs := 0,
          cleanupRan := false, thrown := none }
      else if attemptOk (f 2) then
        { succeeded := true, last := f 2, fetches := 2, delayMs := 3000,
          cleanupRan := false, thrown := none }
      else if attemptOk (f 3) then
        { succeeded := true, last := f 3, fetches := 3, delayMs := 6000,
          cleanupRan := false, thrown := none }
      else if attemptOk (f 4) then
        { succeeded := true, last := f 4, fetches := 4, delayMs := 9000,
          cleanupRan := false, thrown := none }
      else if attemptOk (f 5) then
        { succeeded := true, last := f 5, fetches := 5, delayMs := 12000,
          cleanupRan := false, thrown := none }
      else
        { succeeded := false, last := f 5, fetches := 5, delayMs := 12000,
          cleanupRan := hasCleanup, thrown := some (lastBodyText (f 5)) } := by
  by_cases h1 : attemptOk (f 1) = true <;> by_cases h2 : attemptOk (f 2) = true <;>
    by_cases h3 : attemptOk (f 3) = true <;> by_cases h4 : attemptOk (f 4) = true <;>
    by_cases h5 : attemptOk (f 5) = true <;>
    simp [startConfigPhase, configLoop, attemptNumbers, h1, h2, h3, h4, h5]

/-- C5: the configuration POST is attempted at most 5 times (network
failures and non-success statuses both count as failures); a first success
at attempt `k` stops the loop after `k` fetches with a cumulative fixed
3-second delay between attempts and none after the last, and the phase
proceeds (nothing thrown, no cleanup); five failures stop after exactly 5
fetches and 4 delays, run cleanup when the connection carries a cleanup
callback, and throw an error carrying the last response body or
"no response". -/
theorem config_retry_policy (hasCleanup : Bool) (f : Nat → FetchOutcome) (k : Nat) :
    (startConfigPhase hasCleanup f).fetches ≤ 5
    ∧ (1 ≤ k → k ≤ 5 → attemptOk (f k) = true →
        (∀ j, 1 ≤ j → j < k → attemptOk (f j) = false) →
        startConfigPhase hasCleanup f =
          { succeeded := true, last := f k, fetches := k, delayMs := 3000 * (k - 1),
            cleanupRan := false, thrown := none })
    ∧ ((∀ j, 1 ≤ j → j ≤ 5 → attemptOk (f j) = false) →
        startConfigPhase hasCleanup f =
          { succeeded := false, last := f 5, fetches := 5, delayMs := 12000,
            cleanupRan := hasCleanup, thrown := some (lastBodyText (f 5)) }) := by
  rw [startConfigPhase_unroll]
  refine ⟨?_, ?_, ?_⟩
  · split_ifs <;> simp
  · intro hk1 hk5 hok hmin
    interval_cases k
    · simp [hok]
    · have e1 := hmin 1 (by omega) (by omega)
      simp [hok, e1]
    · have e1 := hmin 1 (by omega) (by omega)
      have e2 := hmin 2 (by omega) (by omega)
      simp [hok, e1, e2]
    · have e1 := hmin 1 (by omega) (by omega)
      have e2 := hmin 2 (by omega) (by omega)
      have e3 := hmin 3 (by omega) (by omega)
      simp [hok, e1, e2, e3]
    · have e1 := hmin 1 (by omega) (by omega)
      have e2 := hmin 2 (by omega) (by omega)
      have e3 := hmin 3 (by omega) (by omega)
      have e4 := hmin 4 (by omega) (by omega)
      simp [hok, e1, e2, e3, e4]
  · intro hall
    have e1 := hall 1 (by omega) (by omega)
    have e2 := hall 2 (by omega) (by omega)
    have e3 := hall 3 (by omega) (by omega)
    have e4 := hall 4 (by omega) (by omega)
    have e5 := hall 5 (by omega) (by omega)
    simp [e1, e2, e3, e4, e5]

/-- Witness for C5: two failures then a success proceeds after 3 fetches
and 6 seconds of delay; five failures throw "boom" after cleanup. -/
theorem config_retry_policy_witness :
    startConfigPhase true fEx =
      { succeeded := true, last := FetchOutcome.resp true 200 "ok", fetches := 3,
        delayMs := 6000, cleanupRan := false, thrown := none }
    ∧ startConfigPhase true fFailEx =
      { succeeded := false, last := FetchOutcome.resp false 500 "boom", fetches := 5,
        delayMs := 12000, cleanupRan := true, thrown := some "boom" } := by
  constructor
  · have h := (config_retry_policy true fEx 3).2.1 (by omega) (by omega) (by decide)
      (fun j h1 h2 => by interval_cases j <;> decide)
    rw [h]; rfl
  · have h := (config_retry_policy true fFailEx 1).2.2
      (fun j h1 h2 => by interval_cases j <;> decide)
    rw [h]; rfl

theorem runBridge_cons {α : Type} (s : BridgeState α) (e : DrainEvent α)
    (es : List (DrainEvent α)) :
    runBridge s (e :: es) = runBridge (stepBridge s e) es := rfl

theorem runBridge_append {α : Type} (s : BridgeState α) (es₁ es₂ : List (DrainEvent α)) :
    runBridge s (es₁ ++ es₂) = runBridge (runBridge s es₁) es₂ :=
  List.foldl_append _ _ _ _

/-- Invariant of the input bridge: delivered messages followed by the
pending queue always equal the prior contents followed by the submissions,
in order. -/
theorem runBridge_invariant {α : Type} (es : List (DrainEvent α)) :
    ∀ s : BridgeState α,
      (runBridge s es).delivered ++ (runBridge s es).queue =
        s.delivered ++ (s.queue ++ submitted es) := by
  induction es with
  | nil => intro s; simp [runBridge, submitted]
  | cons e es ih =>
      intro s
      rw [runBridge_cons]
      cases e with
      | enqueue m =>
          rw [ih]
          show (s.delivered) ++ ((s.queue ++ [m]) ++ submitted es) = _
          simp [submitted]
      | drain =>
          cases hq : s.queue with
          | nil =>
              have hstep : stepBridge s DrainEvent.drain = s := by
                unfold stepBridge; rw [hq]
              rw [hstep, ih]
              simp [submitted, hq]
          | cons m rest =>
              have hstep : stepBridge s DrainEvent.drain =
                  { queue := rest, delivered := s.delivered ++ [m] } := by
                unfold stepBridge; rw [hq]
              rw [hstep, ih]
              simp [submitted, hq]

theorem runBridge_drain_all {α : Type} :
    ∀ (q d : List α),
      runBridge { queue := q, delivered := d }
          (List.replicate q.length DrainEvent.drain) =
        { queue := [], delivered := d ++ q } := by
  intro q
  induction q with
  | nil => intro d; simp [runBridge]
  | cons m rest ih =>
      intro d
      show runBridge _ (DrainEvent.drain :: List.replicate rest.length DrainEvent.drain) = _
      rw [runBridge_cons]
      show runBridge { queue := rest, delivered := d ++ [m] } _ = _
      rw [ih]
      simp

/-- C8: over every interleaving of enqueue steps and drain steps starting
from the empty queue, the delivered sequence followed by the still-pending
queue equals the submissions in exact submission order (no reordering,
merging, or dropping — pending messages are retained in order however fast
they were enqueued); and appending enough drain steps delivers exactly the
full submission sequence. -/
theorem fifo_input_order {α : Type} (es : List (DrainEvent α)) :
    (runBridge { queue := [], delivered := [] } es).delivered
        ++ (runBridge { queue := [], delivered := [] } es).queue = submitted es
    ∧ (runBridge { queue := [], delivered := [] }
          (es ++ List.replicate
            (runBridge { queue := [], delivered := [] } es).queue.length
            DrainEvent.drain)).delivered = submitted es := by
  have hinv := runBridge_invariant es ({ queue := [], delivered := [] } : BridgeState α)
  simp at hinv
  refine ⟨hinv, ?_⟩
  rw [runBridge_append]
  have hfin : runBridge ({ queue := [], delivered := [] } : BridgeState α) es =
      { queue := (runBridge { queue := [], delivered := [] } es).queue,
        delivered := (runBridge { queue := [], delivered := [] } es).delivered } := rfl
  rw [hfin, runBridge_drain_all]
  rw [← hinv]

/-- C7: when the runtime stream starts, options resolve in three-tier
override order — a field present in the negotiated SessionConfig (the
`/config` payload) wins over the same field of the startup options passed
to `serve`, which wins over the library default for that field (shown for
every SessionConfig field, and for the defaulted fields `settingSources`
and `cwd`). -/
theorem three_tier_override (workspaceDir : String) (envPATH envKey : Option String)
    (initial : CastariServerOptions) (qc : QueryConfig) :
    ((∀ x, qc.systemPrompt = some x →
        (buildOptions workspaceDir envPATH envKey initial qc).systemPrompt = some x)
      ∧ (qc.systemPrompt = none →
        (buildOptions workspaceDir envPATH envKey initial qc).systemPrompt
          = initial.systemPrompt))
    ∧ ((∀ x, qc.allowedTools = some x →
        (buildOptions workspaceDir envPATH envKey initial qc).allowedTools = some x)
      ∧ (qc.allowedTools = none →
        (buildOptions workspaceDir envPATH envKey initial qc).allowedTools
          = initial.allowedTools))
    ∧ ((∀ x, qc.model = some x →
        (buildOptions workspaceDir envPATH envKey initial qc).model = some x)
      ∧ (qc.model = none →
        (buildOptions workspaceDir envPATH envKey initial qc).model = initial.model))
    ∧ ((∀ x, qc.resume = some x →
        (buildOptions workspaceDir envPATH envKey initial qc).resume = some x)
      ∧ (qc.resume = none →
        (buildOptions workspaceDir envPATH envKey initial qc).resume = initial.resume))
    ∧ ((∀ x, qc.agents = some x →
        (buildOptions workspaceDir envPATH envKey initial qc).agents = some x)
      ∧ (qc.agents = none →
        (buildOptions workspaceDir envPATH envKey initial qc).agents = initial.agents))
    ∧ ((∀ x, initial.settingSources = some x →
        (buildOptions workspaceDir envPATH envKey initial qc).settingSources = x)
      ∧ (initial.settingSources = none →
        (buildOptions workspaceDir envPATH envKey initial qc).settingSources = ["local"]))
    ∧ ((∀ x, initial.cwd = some x →
        (buildOptions workspaceDir envPATH envKey initial qc).cwd = x)
      ∧ (initial.cwd = none →
        (buildOptions workspaceDir envPATH envKey initial qc).cwd = workspaceDir)) := by
  refine ⟨⟨?_, ?_⟩, ⟨?_, ?_⟩, ⟨?_, ?_⟩, ⟨?_, ?_⟩, ⟨?_, ?_⟩, ⟨?_, ?_⟩, ⟨?_, ?_⟩⟩ <;>
    first
      | (intro x hx; simp [buildOptions, hx, Option.orElse])
      | (intro hx; simp [buildOptions, hx, Option.orElse])

/-- Witness for C7: a dynamic prompt overrides the startup prompt; the
startup model and cwd survive when the config omits them; the library
default `settingSources = ["local"]` applies when no tier supplies it. -/
theorem three_tier_override_witness :
    (buildOptions "/workspace" none none serverInitEx qcEx).systemPrompt
        = some "dynamic prompt"
    ∧ (buildOptions "/workspace" none none serverInitEx qcEx).model = some "model-init"
    ∧ (buildOptions "/workspace" none none serverInitEx qcEx).cwd = "/srv"
    ∧ (buildOptions "/workspace" none none serverInitEx qcEx).settingSources = ["local"] := by
  have h := three_tier_override "/workspace" none none serverInitEx qcEx
  exact ⟨h.1.1 "dynamic prompt" rfl, (h.2.2.1).2 rfl, (h.2.2.2.2.2.2).1 "/srv" rfl,
    (h.2.2.2.2.2.1).2 rfl⟩

theorem isPrefixOfL_self_append (pa t : List Char) : isPrefixOfL pa (pa ++ t) = true := by
  induction pa with
  | nil => rfl
  | cons a as ih => simp [isPrefixOfL, ih]

theorem replaceFirstL_left (pa t rep : List Char) :
    replaceFirstL (pa ++ t) pa rep = rep ++ t := by
  cases pa with
  | nil =>
      cases t with
      | nil => simp [replaceFirstL, isPrefixOfL]
      | cons c cs => simp [replaceFirstL, isPrefixOfL]
  | cons a as =>
      show replaceFirstL (a :: (as ++ t)) (a :: as) rep = rep ++ t
      unfold replaceFirstL
      have hg : isPrefixOfL (a :: as) (a :: (as ++ t)) = true :=
        isPrefixOfL_self_append (a :: as) t
      simp only [hg, if_true]
      simp [List.drop_left]

theorem replaceFirstL_of_not_contains (s pa rep : List Char)
    (h : containsSub s pa = false) : replaceFirstL s pa rep = s := by
  induction s with
  | nil =>
      unfold containsSub at h
      unfold replaceFirstL
      simp [h]
  | cons c cs ih =>
      unfold containsSub at h
      simp only [Bool.or_eq_false_iff] at h
      unfold replaceFirstL
      simp [h.1, ih h.2]

theorem containsSub_append_of_head (p : Char) (ps a b : List Char)
    (hpa : p ∉ a) (hb : containsSub b (p :: ps) = false) :
    containsSub (a ++ b) (p :: ps) = false := by
  induction a with
  | nil => simpa using hb
  | cons c as ih =>
      have hne : p ≠ c := fun hc => hpa (hc ▸ List.mem_cons_self c as)
      have h1 : isPrefixOfL (p :: ps) (c :: (as ++ b)) = false := by
        simp [isPrefixOfL, hne]
      have h2 : containsSub (as ++ b) (p :: ps) = false :=
        ih fun hmem => hpa (List.mem_cons_of_mem c hmem)
      show containsSub (c :: (as ++ b)) (p :: ps) = false
      unfold containsSub
      simp [h1, h2]

/-- If matching the pattern against `s₂` alone already fails within the
first `s₂.length` characters, extending `s₂` by any `b` cannot help. -/
theorem isPrefixOfL_append_false (pa : List Char) :
    ∀ (s₂ b : List Char), isPrefixOfL (pa.take s₂.length) s₂ = false →
      isPrefixOfL pa (s₂ ++ b) = false := by
  induction pa with
  | nil =>
      intro s₂ b h
      rw [List.take_nil] at h
      simp [isPrefixOfL] at h
  | cons p ps ih =>
      intro s₂ b h
      cases s₂ with
      | nil => simp [isPrefixOfL] at h
      | cons c cs =>
          rw [List.length_cons, List.take_succ_cons] at h
          by_cases hpc : p = c
          · simp [isPrefixOfL, hpc] at h
            show isPrefixOfL (p :: ps) (c :: (cs ++ b)) = false
            simp [isPrefixOfL, hpc, ih cs b h]
          · show isPrefixOfL (p :: ps) (c :: (cs ++ b)) = false
            simp [isPrefixOfL, hpc]

/-- If every nonempty suffix of `a` fails to match the pattern within `a`
itself, an occurrence in `a ++ b` can only lie inside `b`. -/
theorem containsSub_append_of_tails_fail (pa : List Char) :
    ∀ (a b : List Char),
      (∀ s₂ ∈ a.tails, s₂ ≠ [] → isPrefixOfL (pa.take s₂.length) s₂ = false) →
      containsSub b pa = false → containsSub (a ++ b) pa = false := by
  intro a
  induction a with
  | nil => intro b _ hb; simpa using hb
  | cons c cs ih =>
      intro b ha hb
      have hmem : (c :: cs) ∈ (c :: cs).tails :=
        (List.mem_tails _ _).mpr (List.suffix_refl _)
      have h1 : isPrefixOfL pa ((c :: cs) ++ b) = false :=
        isPrefixOfL_append_false pa (c :: cs) b (ha (c :: cs) hmem (by simp))
      have h2 : containsSub (cs ++ b) pa = false :=
        ih b
          (fun s₂ hs hne =>
            ha s₂ ((List.mem_tails _ _).mpr
              (((List.mem_tails _ _).mp hs).trans (List.suffix_cons c cs))) hne)
          hb
      show containsSub (c :: (cs ++ b)) pa = false
      unfold containsSub
      rw [← List.cons_append, h1, h2]
      rfl

/-- C6: with an explicit direct connection URL, platform provisioning is
never invoked — for every such URL — and the config/transport endpoints
come from the URL (a single trailing slash stripped, as the code does) by
scheme substitution: an `http://` URL keeps http for `/config` and becomes
`ws://` for `/ws`, an `https://` URL keeps https and becomes `wss://`. The
remainder after the scheme may not itself embed another scheme marker —
for such URLs `String.replace` rewrites the embedded occurrence and plain
scheme substitution is not what the code computes. Without a direct URL,
with proxy use resolved on (the default) and a proxy URL present in the
provisioning response, provisioning is invoked and configuration/transport
target the platform proxy path and proxy URL — independent of the
sandbox's own URL. -/
theorem mode_selection (optsL optsP : ClientOptions)
    (envPlatformUrl envUseProxy envClientId : Option (List Char))
    (respL respP : ProvisionResponse) (u rest p : List Char) :
    (optsL.connectionUrl = some u →
      (resolveConnection optsL envPlatformUrl envUseProxy envClientId respL).1 = false
      ∧ (stripTrailingSlashL u = httpSchemeL ++ rest →
          containsSub rest wsSchemeL = false →
          containsSub rest wssSchemeL = false →
          containsSub rest httpsSchemeL = false →
          (resolveConnection optsL envPlatformUrl envUseProxy envClientId respL).2 =
            Except.ok { configUrl := httpSchemeL ++ rest ++ "/config".toList,
                        wsUrl := wsSchemeL ++ rest ++ "/ws".toList })
      ∧ (stripTrailingSlashL u = httpsSchemeL ++ rest →
          containsSub rest wsSchemeL = false →
          containsSub rest wssSchemeL = false →
          containsSub rest httpSchemeL = false →
          (resolveConnection optsL envPlatformUrl envUseProxy envClientId respL).2 =
            Except.ok { configUrl := httpsSchemeL ++ rest ++ "/config".toList,
                        wsUrl := wssSchemeL ++ rest ++ "/ws".toList }))
    ∧ (optsP.connectionUrl = none →
      (optsP.clientId.orElse fun _ => envClientId).isSome = true →
      resolvedUseProxy optsP envUseProxy = true →
      respP.proxyUrl = some p →
      (resolveConnection optsP envPlatformUrl envUseProxy envClientId respP).1 = true
      ∧ (resolveConnection optsP envPlatformUrl envUseProxy envClientId respP).2 =
          Except.ok { configUrl := resolvedPlatformUrl optsP envPlatformUrl
                        ++ "/proxy/".toList ++ respP.id ++ "/config".toList,
                      wsUrl := p, hasCleanup := true }
      ∧ (∀ url₂, resolveConnection optsP envPlatformUrl envUseProxy envClientId
            { respP with url := url₂ }
          = resolveConnection optsP envPlatformUrl envUseProxy envClientId respP)) := by
  have hws : wsSchemeL = 'w' :: "s://".toList := rfl
  have hwss : wssSchemeL = 'w' :: "ss://".toList := rfl
  have hhttps : httpsSchemeL = 'h' :: "ttps://".toList := rfl
  constructor
  · intro hc
    refine ⟨?_, ?_, ?_⟩
    · simp [resolveConnection, hc]
    · intro hu h1 h2 h3
      simp only [resolveConnection, hc]
      unfold setupLocalConnection
      simp only [Option.getD_some]
      rw [hu]
      have c1 : containsSub (httpSchemeL ++ rest) wsSchemeL = false := by
        rw [hws] at h1 ⊢
        exact containsSub_append_of_head 'w' ("s://".toList) httpSchemeL rest (by decide) h1
      have c2 : containsSub (httpSchemeL ++ rest) wssSchemeL = false := by
        rw [hwss] at h2 ⊢
        exact containsSub_append_of_head 'w' ("ss://".toList) httpSchemeL rest (by decide) h2
      rw [replaceFirstL_of_not_contains _ wsSchemeL httpSchemeL c1]
      rw [replaceFirstL_of_not_contains _ wssSchemeL httpsSchemeL c2]
      rw [replaceFirstL_left httpSchemeL rest wsSchemeL]
      have c3 : containsSub (wsSchemeL ++ rest) httpsSchemeL = false := by
        rw [hhttps] at h3 ⊢
        exact containsSub_append_of_head 'h' ("ttps://".toList) wsSchemeL rest (by decide) h3
      rw [replaceFirstL_of_not_contains _ httpsSchemeL wssSchemeL c3]
    · intro hu h1 h2 h3
      simp only [resolveConnection, hc]
      unfold setupLocalConnection
      simp only [Option.getD_some]
      rw [hu]
      have c1 : containsSub (httpsSchemeL ++ rest) wsSchemeL = false := by
        rw [hws] at h1 ⊢
        exact containsSub_append_of_head 'w' ("s://".toList) httpsSchemeL rest (by decide) h1
      have c2 : containsSub (httpsSchemeL ++ rest) wssSchemeL = false := by
        rw [hwss] at h2 ⊢
        exact containsSub_append_of_head 'w' ("ss://".toList) httpsSchemeL rest (by decide) h2
      rw [replaceFirstL_of_not_contains _ wsSchemeL httpSchemeL c1]
      rw [replaceFirstL_of_not_contains _ wssSchemeL httpsSchemeL c2]
      have c3 : containsSub (httpsSchemeL ++ rest) httpSchemeL = false :=
        containsSub_append_of_tails_fail httpSchemeL httpsSchemeL rest (by decide) h3
      rw [replaceFirstL_of_not_contains _ httpSchemeL wsSchemeL c3]
      rw [replaceFirstL_left httpsSchemeL rest wssSchemeL]
  · intro hc hcid huse hproxy
    obtain ⟨cid, hcid2⟩ := Option.isSome_iff_exists.mp hcid
    refine ⟨?_, ?_, ?_⟩
    · simp [resolveConnection, hc]
    · simp only [resolveConnection, hc]
      unfold setupPlatformConnection
      rw [hcid2]
      simp [huse, hproxy]
    · intro url₂
      simp only [resolveConnection, hc]
      unfold setupPlatformConnection
      rw [hcid2]
      simp [huse, hproxy]

/-- Witness for C6: a direct http localhost URL skips provisioning with
http/ws endpoints; a direct https URL with a trailing slash skips
provisioning with https/wss endpoints; platform options with a proxy
response invoke provisioning. -/
theorem mode_selection_witness :
    (resolveConnection optsLocalEx none none none respProxyEx).1 = false
    ∧ (resolveConnection optsLocalEx none none none respProxyEx).2 =
        Except.ok { configUrl := "http://localhost:3000/config".toList,
                    wsUrl := "ws://localhost:3000/ws".toList }
    ∧ (resolveConnection optsLocalHttpsEx none none none respProxyEx).1 = false
    ∧ (resolveConnection optsLocalHttpsEx none none none respProxyEx).2 =
        Except.ok { configUrl := "https://myhost:8443/config".toList,
                    wsUrl := "wss://myhost:8443/ws".toList }
    ∧ (resolveConnection optsPlatformEx none none none respProxyEx).1 = true
    ∧ (resolveConnection optsPlatformEx none none none respProxyEx).2 =
        Except.ok { configUrl := resolvedPlatformUrl optsPlatformEx none
                      ++ "/proxy/".toList ++ "sb".toList ++ "/config".toList,
                    wsUrl := "wss://proxy.example/ws/sb".toList, hasCleanup := true } := by
  have h := mode_selection optsLocalEx optsPlatformEx none none none respProxyEx respProxyEx
    ("http://localhost:3000".toList) ("localhost:3000".toList)
    ("wss://proxy.example/ws/sb".toList)
  have hs := mode_selection optsLocalHttpsEx optsPlatformEx none none none respProxyEx
    respProxyEx ("https://myhost:8443/".toList) ("myhost:8443".toList)
    ("wss://proxy.example/ws/sb".toList)
  have h1 := h.1 rfl
  have hs1 := hs.1 rfl
  have h2 := h.2 rfl (by decide) (by decide) rfl
  refine ⟨h1.1, ?_, hs1.1, ?_, h2.1, ?_⟩
  · rw [h1.2.1 (by decide) (by decide) (by decide) (by decide)]
    rfl
  · rw [hs1.2.2 (by decide) (by decide) (by decide) (by decide)]
    rfl
  · rw [h2.2.1]
    rfl

end CastariSdk
